import Mathlib

-- Shallow embedding of the NextGenTransportMockup authorization pipeline:
-- the Arbiter's registry and token mint (src/arbiter/src/state.rs,
-- src/arbiter/src/acl.rs, src/arbiter/src/request.rs,
-- src/arbiter/src/request_handler.rs) and the Device's token validator and
-- parameter handler (src/device/src/main.rs).
--
-- Modelling conventions:
--   * `uuid::Uuid` values are represented by their canonical textual form,
--     so `Uuid.to_string` is the identity.
--   * `std::time::Instant` and `SystemTime` are whole seconds (`Nat`).
--     `Instant::duration_since` saturates at zero, which is `Nat` truncated
--     subtraction, and `Duration::as_secs` is the identity at this granularity.
--   * `HashMap` is an association list with no duplicate keys;
--     `HashMap::insert` replaces the binding of an existing key in place.
--   * ES256 signatures are symbolic: a signing key is a `Nat` identity, a
--     signed JWS records which key produced it, and verification compares the
--     recorded key with the verifier's key. Real elliptic-curve arithmetic is
--     outside the embedding.

set_option autoImplicit false

namespace Ngt

/-- A component identifier (`uuid::Uuid`), kept in its canonical text form. -/
abbrev Uuid := String

/-- Lookup in a `HashMap` modelled as an association list
(`HashMap::get` semantics). -/
def hmLookup {α : Type} (m : List (Uuid × α)) (k : Uuid) : Option α :=
  match m with
  | [] => none
  | (k1, v) :: rest => if k1 = k then some v else hmLookup rest k

/-- Insertion in a `HashMap` modelled as an association list: replaces the
binding of an existing key, otherwise appends a new binding
(`HashMap::insert` semantics). -/
def hmInsert {α : Type} (m : List (Uuid × α)) (k : Uuid) (v : α) :
    List (Uuid × α) :=
  match m with
  | [] => [(k, v)]
  | (k1, v1) :: rest =>
    if k1 = k then (k, v) :: rest else (k1, v1) :: hmInsert rest k v

/-- The key set of a modelled `HashMap`. -/
def hmKeys {α : Type} (m : List (Uuid × α)) : List Uuid := m.map Prod.fst

/-- `AclParameters` from src/arbiter/src/acl.rs. -/
structure AclParameters where
  read : List String
  write : List String
deriving DecidableEq

/-- `AclEntry` from src/arbiter/src/acl.rs. -/
structure AclEntry where
  controller_cids : List Uuid
  device_cids : List Uuid
  parameters : AclParameters
deriving DecidableEq

/-- `AclDatabase` from src/arbiter/src/acl.rs. -/
structure AclDatabase where
  entries : List AclEntry
deriving DecidableEq

/-- `ApiDevice` from src/arbiter/src/request.rs: the wire form of a device
record, used by registration and by the device-list response. -/
structure ApiDevice where
  cid : Uuid
  label : String
  manufacturer : String
  model : String
  port : Nat
  ttl : Nat
deriving DecidableEq

/-- `Device` from src/arbiter/src/state.rs: the registry's stored record. -/
structure Device where
  label : String
  manufacturer : String
  model : String
  port : Nat
  valid_until : Nat
deriving DecidableEq

/-- `State` from src/arbiter/src/state.rs: the registry map. -/
structure State where
  devices : List (Uuid × Device)
deriving DecidableEq

/-- `ControlTokenRequest` from src/arbiter/src/request.rs. -/
structure ControlTokenRequest where
  cid : Uuid
  devices : List Uuid
  params_read : List String
  params_write : List String
deriving DecidableEq

/-- `JwtClaims` (identical in src/arbiter/src/state.rs and
src/device/src/main.rs). -/
structure JwtClaims where
  iss : String
  sub : String
  aud : String
  exp : Nat
  params_read : List String
  params_write : List String
deriving DecidableEq

/-- A JOSE header; the arbiter always uses `Header::new(Algorithm::ES256)`. -/
structure JwtHeader where
  alg : String
deriving DecidableEq

/-- A compact JWS as produced by `jsonwebtoken::encode`: header, claims, and
the (symbolic) identity of the private key whose signature covers both. -/
structure Jwt where
  header : JwtHeader
  claims : JwtClaims
  sigKey : Nat
deriving DecidableEq

/-- `jsonwebtoken::encode(header, claims, key)`; signing never fails in the
symbolic model. -/
def encodeJwt (header : JwtHeader) (claims : JwtClaims) (key : Nat) : Jwt :=
  ⟨header, claims, key⟩

/-- `ControlTokenResponse` from src/arbiter/src/request.rs: a map from device
CID to its minted token. -/
structure ControlTokenResponse where
  tokens : List (Uuid × Jwt)
deriving DecidableEq

/-- `register_device` from src/arbiter/src/state.rs (lines 75-89). `now` is
the `Instant::now()` sampled inside the vacant branch. -/
def register_device (now : Nat) (state : State) (device : ApiDevice) :
    Except String State :=
  match hmLookup state.devices device.cid with
  | some _ => .error "A device with this CID already exists"
  | none =>
    .ok ⟨hmInsert state.devices device.cid
      ⟨device.label, device.manufacturer, device.model, device.port,
        now + device.ttl⟩⟩

/-- `list_devices` from src/arbiter/src/state.rs (lines 91-106). The reported
`ttl` is `valid_until.duration_since(Instant::now()).as_secs()`:
`duration_since` yields zero when `now` is past `valid_until`, i.e. truncated
subtraction. -/
def list_devices (now : Nat) (state : State) : List ApiDevice :=
  state.devices.map fun e =>
    ⟨e.1, e.2.label, e.2.manufacturer, e.2.model, e.2.port,
      e.2.valid_until - now⟩

/-- The claims built for one device inside `get_control_token`
(src/arbiter/src/state.rs lines 132-142): `exp` is `now + 6000` seconds since
the Unix epoch. -/
def mkClaims (arb_cid : Uuid) (request : ControlTokenRequest) (device : Uuid)
    (now : Nat) : JwtClaims :=
  ⟨arb_cid, request.cid, device, now + 6000,
    request.params_read, request.params_write⟩

/-- The token minted for one device inside `get_control_token`:
`jsonwebtoken::encode(Header::new(Algorithm::ES256), claims, jwt_key)`. -/
def mintToken (arb_cid : Uuid) (request : ControlTokenRequest) (now : Nat)
    (jwt_key : Nat) (device : Uuid) : Jwt :=
  encodeJwt ⟨"ES256"⟩ (mkClaims arb_cid request device now) jwt_key

/-- The token map assembled by the loop of `get_control_token`
(src/arbiter/src/state.rs lines 131-150): one `HashMap::insert` per element of
`request.devices`. -/
def mintAll (request : ControlTokenRequest) (jwt_key : Nat) (arb_cid : Uuid)
    (now : Nat) : List (Uuid × Jwt) :=
  request.devices.foldl
    (fun tokens device =>
      hmInsert tokens device (mintToken arb_cid request now jwt_key device))
    []

/-- `get_control_token` from src/arbiter/src/state.rs (lines 118-153). The
source reads `// TODO: Validate with ACL`: the `acl` argument is accepted but
never consulted, and the function never returns an error (symbolic signing
cannot fail). -/
def get_control_token (request : ControlTokenRequest) (acl : AclDatabase)
    (jwt_key : Nat) (arb_cid : Uuid) (now : Nat) :
    Except String ControlTokenResponse :=
  .ok ⟨mintAll request jwt_key arb_cid now⟩

/-- `RequestType` from src/arbiter/src/request.rs. -/
inductive RequestType where
  | register (device : ApiDevice)
  | list
  | controlToken (request : ControlTokenRequest)
  | shutdown
deriving DecidableEq

/-- CoAP response codes used by the embedded handlers. -/
inductive CoapCode where
  | content
  | changed
  | badRequest
  | forbidden
  | notFound
deriving DecidableEq

/-- `Response` from src/arbiter/src/request.rs, with `HandlingError` flattened
to its code and message. -/
inductive ArbResponse where
  | ok
  | listResponse (devices : List ApiDevice)
  | controlTokenResponse (response : ControlTokenResponse)
  | error (code : CoapCode) (message : String)
deriving DecidableEq

/-- One iteration of `run_state_loop` from src/arbiter/src/state.rs (lines
50-72): dispatch one queued request against the registry, producing the next
registry state and the response. Errors from `register_device` and
`get_control_token` are wrapped as `HandlingError::bad_request`. -/
def stateStep (now : Nat) (acl : AclDatabase) (jwt_key : Nat) (my_cid : Uuid)
    (state : State) : RequestType → State × ArbResponse
  | .register device =>
    match register_device now state device with
    | .ok state1 => (state1, .ok)
    | .error e => (state, .error .badRequest e)
  | .list => (state, .listResponse (list_devices now state))
  | .controlToken request =>
    match get_control_token request acl jwt_key my_cid now with
    | .ok response => (state, .controlTokenResponse response)
    | .error e => (state, .error .badRequest e)
  | .shutdown => (state, .ok)

/-- The error categories `jsonwebtoken::decode` can produce under the
configuration of `decode_jwt` (src/device/src/main.rs lines 254-267):
`Validation::new(Algorithm::ES256)` with `set_audience(&[my_cid])`. -/
inductive JwtError where
  | invalidAlgorithm
  | invalidSignature
  | expiredSignature
  | invalidAudience
deriving DecidableEq

/-- The display form of a `jsonwebtoken` error, as interpolated into the
device's response payloads. -/
def jwtErrorMessage : JwtError → String
  | .invalidAlgorithm => "InvalidAlgorithm"
  | .invalidSignature => "InvalidSignature"
  | .expiredSignature => "ExpiredSignature"
  | .invalidAudience => "InvalidAudience"

/-- The default clock-skew leeway of `jsonwebtoken::Validation`, in seconds.
`Validation::new` leaves it at 60 and `decode_jwt` never overrides it. -/
def jwtLeeway : Nat := 60

/-- `decode_jwt` from src/device/src/main.rs (lines 254-267), i.e.
`jsonwebtoken::decode` with `Validation::new(Algorithm::ES256)` and the
audience set to this device's CID. The crate checks the header algorithm,
verifies the signature, and validates the claims: a token is rejected as
expired only when `exp < now - leeway` (u64 arithmetic; `Nat` truncated
subtraction agrees for `now ≥ leeway`), and the audience must equal the
configured CID. -/
def decode_jwt (token : Jwt) (decoder : Nat) (my_cid : String) (now : Nat) :
    Except JwtError JwtClaims :=
  if token.header.alg ≠ "ES256" then .error .invalidAlgorithm
  else if token.sigKey ≠ decoder then .error .invalidSignature
  else if token.claims.exp < now - jwtLeeway then .error .expiredSignature
  else if token.claims.aud ≠ my_cid then .error .invalidAudience
  else .ok token.claims

/-- A device response: `ok payload` leaves the pre-populated CoAP response
with the given payload; `error` is `apply_from_error` with a code and
message. -/
inductive DeviceResponse where
  | ok (payload : String)
  | error (code : CoapCode) (message : String)
deriving DecidableEq

/-- The GET arm of the device's `RequestHandler::handle_request`
(src/device/src/main.rs lines 86-133), starting from a successfully parsed
`GetParamPayload` carrying `token`. A decode failure becomes
`HandlingError::bad_request` with the decode error interpolated; a token
lacking the parameter in `params_read` gets 4.03 Forbidden; otherwise the
payload is the literal `42`. -/
def handle_get (parameter : String) (token : Jwt) (decoder : Nat)
    (my_cid : Uuid) (now : Nat) : DeviceResponse :=
  match decode_jwt token decoder my_cid now with
  | .error e => .error .badRequest ("Couldn't decode JWT: " ++ jwtErrorMessage e)
  | .ok claims =>
    if ¬ claims.params_read.contains parameter then
      .error .forbidden "No permission for parameter"
    else
      .ok "42"

/-- The PUT arm of the device's `RequestHandler::handle_request`
(src/device/src/main.rs lines 134-181), starting from a successfully parsed
`SetParamPayload` carrying `token` and `value`. The written value is logged
but not persisted; success clears the response payload. -/
def handle_put (parameter : String) (token : Jwt) (value : String)
    (decoder : Nat) (my_cid : Uuid) (now : Nat) : DeviceResponse :=
  match decode_jwt token decoder my_cid now with
  | .error e => .error .badRequest ("Couldn't decode JWT: " ++ jwtErrorMessage e)
  | .ok claims =>
    if ¬ claims.params_write.contains parameter then
      .error .forbidden "No permission for parameter"
    else
      .ok ""

/-- Hexadecimal digit test for UUID parsing. -/
def isHexChar (c : Char) : Bool :=
  (decide ('0' ≤ c) && decide (c ≤ '9'))
    || (decide ('a' ≤ c) && decide (c ≤ 'f'))
    || (decide ('A' ≤ c) && decide (c ≤ 'F'))

/-- Split a character list on the hyphen character. -/
def splitDash : List Char → List (List Char)
  | [] => [[]]
  | c :: rest =>
    let groups := splitDash rest
    if c = '-' then [] :: groups
    else
      match groups with
      | [] => [[c]]
      | g :: gs => (c :: g) :: gs

/-- `str::parse::<Uuid>` for the canonical hyphenated 8-4-4-4-12 form. (The
uuid crate also accepts braced, simple and URN forms; only the canonical form
and the failure branch are exercised here.) -/
def parseUuid (s : String) : Option Uuid :=
  let groups := splitDash s.data
  if groups.map List.length = [8, 4, 4, 4, 12]
      && groups.all (fun g => g.all isHexChar) then
    some s
  else
    none

/-- CoAP request method. -/
inductive Method where
  | get
  | post
  | put
  | other
deriving DecidableEq

/-- `PutDevicePayload` from src/arbiter/src/request_handler.rs. -/
structure PutDevicePayload where
  label : String
  manufacturer : String
  model : String
  port : Nat
  ttl : Nat
deriving DecidableEq

/-- The outcome of the arbiter's CoAP routing: an immediate error reply, a
typed request forwarded to the state actor, or a panic of the handler task. -/
inductive HandlerOutcome where
  | reply (code : CoapCode) (message : String)
  | toState (request : RequestType)
  | panicked (message : String)
deriving DecidableEq

/-- The routing match of the arbiter's `RequestHandler::handle_request`
(src/arbiter/src/request_handler.rs lines 49-100). The serde parse results of
the body against `PutDevicePayload` and `ControlTokenRequest` are supplied as
arguments (`serde_json::from_slice` is outside the embedding); each route
inspects only its own. In the register route the source runs
`id.parse().unwrap()` after the body parse, so an unparseable path CID
panics the handler instead of producing a reply. -/
def routeArbiter (method : Method) (path : List String)
    (device_payload : Except String PutDevicePayload)
    (token_payload : Except String ControlTokenRequest) : HandlerOutcome :=
  match method, path with
  | .get, ["devices"] => .toState .list
  | .put, ["devices", id] =>
    match device_payload with
    | .error e =>
      .reply .badRequest
        ("Couldn't parse payload of PUT /devices/" ++ id ++ ": " ++ e)
    | .ok payload =>
      match parseUuid id with
      | some cid =>
        .toState (.register ⟨cid, payload.label, payload.manufacturer,
          payload.model, payload.port, payload.ttl⟩)
      | none => .panicked "called Option::unwrap on a None value"
  | .get, ["controlToken"] =>
    match token_payload with
    | .error e =>
      .reply .badRequest ("Couldn't parse payload of GET /controlToken: " ++ e)
    | .ok payload => .toState (.controlToken payload)
  | _, _ => .reply .notFound "Not found"

/-- Access direction of an ACL query. -/
inductive Direction where
  | read
  | write
deriving DecidableEq

/-- Spec wording (§3): an ACL entry matches a request triple
`(controller, device, parameter, access)` when the controller and device are
listed and the parameter is in the entry's set for that direction. -/
def aclMatches (acl : AclDatabase) (controller : Uuid) (device : Uuid)
    (parameter : String) (direction : Direction) : Bool :=
  acl.entries.any fun entry =>
    entry.controller_cids.contains controller
      && entry.device_cids.contains device
      && (match direction with
          | .read => entry.parameters.read.contains parameter
          | .write => entry.parameters.write.contains parameter)

/-- Spec wording (§4.1 Authorization): the check `get_control_token` is
required to perform — every device of the request must be matched for every
requested read and write parameter. The source leaves this as
`// TODO: Validate with ACL`, so this definition exists only to state what
the code omits. -/
def specAclAuthorizes (acl : AclDatabase) (request : ControlTokenRequest) :
    Bool :=
  request.devices.all fun device =>
    request.params_read.all
      (fun p => aclMatches acl request.cid device p .read)
    && request.params_write.all
      (fun p => aclMatches acl request.cid device p .write)

/-- The keys of a cons cell. -/
theorem hmKeys_cons {α : Type} (k : Uuid) (v : α) (rest : List (Uuid × α)) :
    hmKeys ((k, v) :: rest) = k :: hmKeys rest := rfl

/-- Inserting over a matching head replaces the binding in place. -/
theorem hmInsert_cons_eq {α : Type} (rest : List (Uuid × α)) (k : Uuid)
    (v2 v : α) : hmInsert ((k, v2) :: rest) k v = (k, v) :: rest := by
  simp [hmInsert]

/-- Inserting past a non-matching head keeps the head. -/
theorem hmInsert_cons_ne {α : Type} (rest : List (Uuid × α)) (k2 k : Uuid)
    (v2 v : α) (h : ¬ k2 = k) :
    hmInsert ((k2, v2) :: rest) k v = (k2, v2) :: hmInsert rest k v := by
  simp [hmInsert, h]

/-- Lookup after insertion: the inserted key maps to the new value, every
other key is unchanged. -/
theorem hmLookup_hmInsert {α : Type} (m : List (Uuid × α)) (k k1 : Uuid)
    (v : α) :
    hmLookup (hmInsert m k v) k1 = if k = k1 then some v else hmLookup m k1 := by
  induction m with
  | nil => simp [hmInsert, hmLookup]
  | cons e rest ih =>
    obtain ⟨k2, v2⟩ := e
    by_cases h2 : k2 = k
    · subst h2
      by_cases h1 : k2 = k1 <;> simp [hmInsert, hmLookup, h1]
    · have h2s : ¬ k = k2 := fun hh => h2 hh.symm
      rw [hmInsert_cons_ne rest k2 k v2 v h2]
      by_cases h1 : k2 = k1
      · subst h1
        simp [hmLookup, h2s]
      · simp [hmLookup, h1, ih]

/-- A key is absent from the lookup exactly when it is not among the keys. -/
theorem hmLookup_eq_none_iff {α : Type} (m : List (Uuid × α)) (k : Uuid) :
    hmLookup m k = none ↔ k ∉ hmKeys m := by
  induction m with
  | nil => simp [hmLookup, hmKeys]
  | cons e rest ih =>
    obtain ⟨k1, v1⟩ := e
    rw [hmKeys_cons]
    by_cases h : k1 = k
    · subst h
      simp [hmLookup]
    · have hs : ¬ k = k1 := fun hh => h hh.symm
      simp [hmLookup, h, hs, ih]

/-- Key membership after insertion. -/
theorem mem_hmKeys_hmInsert {α : Type} (m : List (Uuid × α)) (k k1 : Uuid)
    (v : α) :
    k1 ∈ hmKeys (hmInsert m k v) ↔ k1 = k ∨ k1 ∈ hmKeys m := by
  induction m with
  | nil => simp [hmInsert, hmKeys]
  | cons e rest ih =>
    obtain ⟨k2, v2⟩ := e
    by_cases h : k2 = k
    · subst h
      rw [hmInsert_cons_eq, hmKeys_cons, hmKeys_cons]
      simp [List.mem_cons]
    · rw [hmInsert_cons_ne rest k2 k v2 v h, hmKeys_cons, hmKeys_cons]
      simp only [List.mem_cons, ih]
      tauto

/-- Insertion preserves distinctness of the keys, as in a real `HashMap`. -/
theorem nodup_hmKeys_hmInsert {α : Type} (m : List (Uuid × α)) (k : Uuid)
    (v : α) (h : (hmKeys m).Nodup) : (hmKeys (hmInsert m k v)).Nodup := by
  induction m with
  | nil => simp [hmInsert, hmKeys]
  | cons e rest ih =>
    obtain ⟨k2, v2⟩ := e
    rw [hmKeys_cons, List.nodup_cons] at h
    by_cases hk : k2 = k
    · subst hk
      rw [hmInsert_cons_eq, hmKeys_cons, List.nodup_cons]
      exact h
    · rw [hmInsert_cons_ne rest k2 k v2 v hk, hmKeys_cons, List.nodup_cons]
      refine ⟨?_, ih h.2⟩
      rw [mem_hmKeys_hmInsert]
      push_neg
      exact ⟨hk, h.1⟩

/-- Looking up a key in the map folded from a device list: present exactly for
the listed keys, with the value generated from the key. -/
theorem hmLookup_foldl_insert {α : Type} (f : Uuid → α) (ds : List Uuid)
    (init : List (Uuid × α)) (k : Uuid) :
    hmLookup (ds.foldl (fun m d => hmInsert m d (f d)) init) k =
      if k ∈ ds then some (f k) else hmLookup init k := by
  induction ds generalizing init with
  | nil => simp
  | cons d ds ih =>
    rw [List.foldl_cons, ih]
    by_cases hk : k ∈ ds
    · simp [hk]
    · rw [hmLookup_hmInsert]
      by_cases hd : d = k
      · subst hd
        simp [hk]
      · have hd1 : ¬ k = d := fun hh => hd hh.symm
        simp [hk, hd, hd1]

/-- The fold preserves distinctness of the keys. -/
theorem nodup_hmKeys_foldl_insert {α : Type} (f : Uuid → α) (ds : List Uuid)
    (init : List (Uuid × α)) (h : (hmKeys init).Nodup) :
    (hmKeys (ds.foldl (fun m d => hmInsert m d (f d)) init)).Nodup := by
  induction ds generalizing init with
  | nil => simpa
  | cons d ds ih => exact ih _ (nodup_hmKeys_hmInsert _ _ _ h)

/-- A freshly inserted binding is an element of the resulting map. -/
theorem hmInsert_mem_self {α : Type} (m : List (Uuid × α)) (k : Uuid) (v : α) :
    (k, v) ∈ hmInsert m k v := by
  induction m with
  | nil => simp [hmInsert]
  | cons e rest ih =>
    obtain ⟨k1, v1⟩ := e
    by_cases h : k1 = k <;> simp [hmInsert, h, ih]

-- Concrete fixtures used by witnesses and counterexamples (the device CID is
-- the seed CID of spec §8).

/-- A device CID fixture. -/
def devCid : Uuid := "11111111-1111-1111-1111-111111111111"

/-- A controller CID fixture. -/
def ctlCid : Uuid := "22222222-2222-2222-2222-222222222222"

/-- An arbiter CID fixture. -/
def arbCid : Uuid := "33333333-3333-3333-3333-333333333333"

/-- C1: contrary to the claim, `get_control_token` performs no ACL check at
all (the source reads `// TODO: Validate with ACL`): against an empty ACL
database, where the spec-mandated check denies the request, the arbiter still
answers with a minted token for the device instead of 4.03 Forbidden with
zero tokens. -/
theorem c1_acl_check_missing :
    specAclAuthorizes ⟨[]⟩ ⟨ctlCid, [devCid], ["speed"], []⟩ = false ∧
    get_control_token ⟨ctlCid, [devCid], ["speed"], []⟩ ⟨[]⟩ 7 arbCid 1000 =
      .ok ⟨[(devCid,
        ⟨⟨"ES256"⟩, ⟨arbCid, ctlCid, devCid, 7000, ["speed"], []⟩, 7⟩)]⟩ := by
  exact ⟨rfl, rfl⟩

/-- C2: every successful control-token request yields, for each requested
device `d`, a token in the response map signed with the arbiter's ES256 key
whose claims are exactly `iss` = arbiter CID, `sub` = requesting controller
CID, `aud` = `d`, `exp` = mint time plus 6000 seconds, and `params_read` /
`params_write` equal to the request's lists. -/
theorem c2_minted_token_claims (request : ControlTokenRequest)
    (acl : AclDatabase) (jwt_key : Nat) (arb_cid : Uuid) (now : Nat)
    (d : Uuid) (hd : d ∈ request.devices) :
    get_control_token request acl jwt_key arb_cid now =
      .ok ⟨mintAll request jwt_key arb_cid now⟩ ∧
    hmLookup (mintAll request jwt_key arb_cid now) d =
      some ⟨⟨"ES256"⟩,
        ⟨arb_cid, request.cid, d, now + 6000,
          request.params_read, request.params_write⟩, jwt_key⟩ := by
  refine ⟨rfl, ?_⟩
  unfold mintAll
  rw [hmLookup_foldl_insert]
  simp [hd, mintToken, mkClaims, encodeJwt]

/-- C2 witness: the guarantee instantiated on a concrete one-device request. -/
theorem c2_minted_token_claims_witness :
    get_control_token ⟨ctlCid, [devCid], ["speed"], ["gear"]⟩ ⟨[]⟩ 7 arbCid 50 =
      .ok ⟨mintAll ⟨ctlCid, [devCid], ["speed"], ["gear"]⟩ 7 arbCid 50⟩ ∧
    hmLookup (mintAll ⟨ctlCid, [devCid], ["speed"], ["gear"]⟩ 7 arbCid 50)
        devCid =
      some ⟨⟨"ES256"⟩,
        ⟨arbCid, ctlCid, devCid, 50 + 6000, ["speed"], ["gear"]⟩, 7⟩ :=
  c2_minted_token_claims ⟨ctlCid, [devCid], ["speed"], ["gear"]⟩ ⟨[]⟩ 7 arbCid
    50 devCid (by simp)

/-- C3: once a token decodes successfully, a device GET succeeds with payload
`42` exactly when the parameter is in the token's `params_read`, a PUT
succeeds with an empty payload exactly when the parameter is in the token's
`params_write`, and the failing direction is answered 4.03 Forbidden with
"No permission for parameter". -/
theorem c3_param_permission (parameter : String) (token : Jwt) (decoder : Nat)
    (my_cid : Uuid) (now : Nat) (claims : JwtClaims) (value : String)
    (h : decode_jwt token decoder my_cid now = .ok claims) :
    (handle_get parameter token decoder my_cid now = .ok "42" ↔
      parameter ∈ claims.params_read) ∧
    (parameter ∉ claims.params_read →
      handle_get parameter token decoder my_cid now =
        .error .forbidden "No permission for parameter") ∧
    (handle_put parameter token value decoder my_cid now = .ok "" ↔
      parameter ∈ claims.params_write) ∧
    (parameter ∉ claims.params_write →
      handle_put parameter token value decoder my_cid now =
        .error .forbidden "No permission for parameter") := by
  have hg : handle_get parameter token decoder my_cid now =
      if ¬ claims.params_read.contains parameter then
        .error .forbidden "No permission for parameter"
      else .ok "42" := by
    unfold handle_get
    rw [h]
  have hp : handle_put parameter token value decoder my_cid now =
      if ¬ claims.params_write.contains parameter then
        .error .forbidden "No permission for parameter"
      else .ok "" := by
    unfold handle_put
    rw [h]
  rw [hg, hp]
  by_cases hr : parameter ∈ claims.params_read <;>
    by_cases hw : parameter ∈ claims.params_write <;>
    simp [hr, hw]

/-- C3 witness: a concrete decoded token granting read on `speed` and write
on `gear`, exercised at both parameters. -/
theorem c3_param_permission_witness :
    (handle_get "speed" ⟨⟨"ES256"⟩,
        ⟨arbCid, ctlCid, devCid, 9000, ["speed"], ["gear"]⟩, 7⟩ 7 devCid 100 =
      .ok "42" ↔
      "speed" ∈ (⟨arbCid, ctlCid, devCid, 9000, ["speed"], ["gear"]⟩ :
        JwtClaims).params_read) ∧
    ("speed" ∉ (⟨arbCid, ctlCid, devCid, 9000, ["speed"], ["gear"]⟩ :
        JwtClaims).params_read →
      handle_get "speed" ⟨⟨"ES256"⟩,
        ⟨arbCid, ctlCid, devCid, 9000, ["speed"], ["gear"]⟩, 7⟩ 7 devCid 100 =
        .error .forbidden "No permission for parameter") ∧
    (handle_put "speed" ⟨⟨"ES256"⟩,
        ⟨arbCid, ctlCid, devCid, 9000, ["speed"], ["gear"]⟩, 7⟩ "5" 7 devCid
        100 = .ok "" ↔
      "speed" ∈ (⟨arbCid, ctlCid, devCid, 9000, ["speed"], ["gear"]⟩ :
        JwtClaims).params_write) ∧
    ("speed" ∉ (⟨arbCid, ctlCid, devCid, 9000, ["speed"], ["gear"]⟩ :
        JwtClaims).params_write →
      handle_put "speed" ⟨⟨"ES256"⟩,
        ⟨arbCid, ctlCid, devCid, 9000, ["speed"], ["gear"]⟩, 7⟩ "5" 7 devCid
        100 = .error .forbidden "No permission for parameter") :=
  c3_param_permission "speed"
    ⟨⟨"ES256"⟩, ⟨arbCid, ctlCid, devCid, 9000, ["speed"], ["gear"]⟩, 7⟩ 7
    devCid 100 ⟨arbCid, ctlCid, devCid, 9000, ["speed"], ["gear"]⟩ "5" rfl

/-- C4 counterexample: a token whose signature does not verify (it was signed
with key 8, the device verifies with key 7) is answered with 4.00 Bad Request
carrying the raw decoder error, not with 4.03 Forbidden describing only the
category. -/
theorem c4_raw_error_leaked :
    decode_jwt ⟨⟨"ES256"⟩, ⟨arbCid, ctlCid, devCid, 999999, ["speed"], []⟩, 8⟩
        7 devCid 100 = .error .invalidSignature ∧
    handle_get "speed"
        ⟨⟨"ES256"⟩, ⟨arbCid, ctlCid, devCid, 999999, ["speed"], []⟩, 8⟩ 7
        devCid 100 =
      .error .badRequest "Couldn't decode JWT: InvalidSignature" ∧
    CoapCode.badRequest ≠ CoapCode.forbidden := by
  exact ⟨rfl, rfl, by decide⟩

/-- C4 amended: a device request whose token fails validation is answered
4.00 Bad Request (`HandlingError::bad_request`) with a payload that embeds
the decoder's raw error description after "Couldn't decode JWT: ". -/
theorem c4_decode_error_response (parameter : String) (token : Jwt)
    (decoder : Nat) (my_cid : Uuid) (now : Nat) (value : String)
    (e : JwtError) (h : decode_jwt token decoder my_cid now = .error e) :
    handle_get parameter token decoder my_cid now =
      .error .badRequest ("Couldn't decode JWT: " ++ jwtErrorMessage e) ∧
    handle_put parameter token value decoder my_cid now =
      .error .badRequest ("Couldn't decode JWT: " ++ jwtErrorMessage e) := by
  constructor
  · unfold handle_get
    rw [h]
  · unfold handle_put
    rw [h]

/-- C4 amended witness: the invalid-signature token again, on both methods. -/
theorem c4_decode_error_response_witness :
    handle_get "speed"
        ⟨⟨"ES256"⟩, ⟨arbCid, ctlCid, devCid, 999999, ["speed"], []⟩, 8⟩ 7
        devCid 100 =
      .error .badRequest
        ("Couldn't decode JWT: " ++ jwtErrorMessage .invalidSignature) ∧
    handle_put "speed"
        ⟨⟨"ES256"⟩, ⟨arbCid, ctlCid, devCid, 999999, ["speed"], []⟩, 8⟩ "5" 7
        devCid 100 =
      .error .badRequest
        ("Couldn't decode JWT: " ++ jwtErrorMessage .invalidSignature) :=
  c4_decode_error_response "speed"
    ⟨⟨"ES256"⟩, ⟨arbCid, ctlCid, devCid, 999999, ["speed"], []⟩, 8⟩ 7 devCid
    100 "5" .invalidSignature rfl

/-- C5: when a CID is already registered, a second registration for it is
answered 4.00 with "A device with this CID already exists" and the registry —
the first record included — is returned unchanged. -/
theorem c5_duplicate_registration (now : Nat) (acl : AclDatabase)
    (jwt_key : Nat) (my_cid : Uuid) (state : State) (d : ApiDevice)
    (record : Device) (h : hmLookup state.devices d.cid = some record) :
    stateStep now acl jwt_key my_cid state (.register d) =
      (state, .error .badRequest "A device with this CID already exists") := by
  have hr : register_device now state d =
      Except.error "A device with this CID already exists" := by
    unfold register_device
    rw [h]
  simp only [stateStep, hr]

/-- C5 witness: re-registering the seed device over a one-entry registry. -/
theorem c5_duplicate_registration_witness :
    stateStep 500 ⟨[]⟩ 7 arbCid
        ⟨[(devCid, ⟨"Lamp", "Acme", "L1", 40001, 3700⟩)]⟩
        (.register ⟨devCid, "Other", "Acme", "L2", 40002, 60⟩) =
      (⟨[(devCid, ⟨"Lamp", "Acme", "L1", 40001, 3700⟩)]⟩,
        .error .badRequest "A device with this CID already exists") :=
  c5_duplicate_registration 500 ⟨[]⟩ 7 arbCid
    ⟨[(devCid, ⟨"Lamp", "Acme", "L1", 40001, 3700⟩)]⟩
    ⟨devCid, "Other", "Acme", "L2", 40002, 60⟩
    ⟨"Lamp", "Acme", "L1", 40001, 3700⟩ (by decide)

/-- A well-signed token whose expiry equals the observation instant. -/
def c6Token : Jwt :=
  ⟨⟨"ES256"⟩, ⟨arbCid, ctlCid, devCid, 1000, ["speed"], []⟩, 7⟩

/-- C6 counterexample: a token with `exp == now` (both 1000) passes the
device's validation — `jsonwebtoken` rejects as expired only when
`exp < now - leeway` with a default leeway of 60 seconds, so validation does
not require `exp` strictly greater than `now`. -/
theorem c6_exp_now_accepted :
    c6Token.claims.exp = 1000 ∧
    decode_jwt c6Token 7 devCid 1000 = .ok c6Token.claims := by
  exact ⟨rfl, rfl⟩

/-- C6 amended: for a token with the right algorithm and a valid signature,
the device's validation reports expiry exactly when `exp` is below `now`
minus the 60-second default leeway; in particular `exp == now` is accepted. -/
theorem c6_expiry_leeway (token : Jwt) (decoder : Nat) (my_cid : Uuid)
    (now : Nat) (halg : token.header.alg = "ES256")
    (hsig : token.sigKey = decoder) :
    decode_jwt token decoder my_cid now = .error .expiredSignature ↔
      token.claims.exp < now - jwtLeeway := by
  unfold decode_jwt
  rw [halg, hsig]
  by_cases hexp : token.claims.exp < now - jwtLeeway
  · simp [hexp]
  · by_cases haud : token.claims.aud = my_cid <;> simp [hexp, haud]

/-- A well-signed token that expired long before the observation instant. -/
def c6OldToken : Jwt := ⟨⟨"ES256"⟩, ⟨arbCid, ctlCid, devCid, 0, [], []⟩, 7⟩

/-- C6 amended witness: the expiry criterion instantiated on a long-expired
token. -/
theorem c6_expiry_leeway_witness :
    decode_jwt c6OldToken 7 devCid 1000 = .error .expiredSignature ↔
      c6OldToken.claims.exp < 1000 - jwtLeeway :=
  c6_expiry_leeway c6OldToken 7 devCid 1000 rfl rfl

/-- C7: contrary to the claim, a PUT /devices/\x7bcid\x7d whose path CID does
not parse panics the arbiter's request handler (the source runs
`id.parse().unwrap()`) instead of answering 4.00 Bad Request: here the
well-formed body is parsed first, then the unparseable segment `xyz` hits the
unwrap. -/
theorem c7_unparseable_cid_panics :
    parseUuid "xyz" = none ∧
    routeArbiter .put ["devices", "xyz"]
        (.ok ⟨"Lamp", "Acme", "L1", 40001, 3600⟩) (.error "unused") =
      .panicked "called Option::unwrap on a None value" := by
  exact ⟨rfl, rfl⟩

/-- C8 counterexample: a control-token request with an empty `devices` array
is not answered 4.00 Bad Request — the state loop answers it with a normal
control-token response whose `tokens` map is empty. -/
theorem c8_empty_devices_not_rejected :
    stateStep 100 ⟨[]⟩ 7 arbCid ⟨[]⟩
        (.controlToken ⟨ctlCid, [], ["speed"], []⟩) =
      (⟨[]⟩, .controlTokenResponse ⟨[]⟩) := by
  exact rfl

/-- C8 amended: a GET /controlToken request whose `devices` array is empty
succeeds with an empty `tokens` map (the code never checks the non-emptiness
precondition), leaving the registry untouched. -/
theorem c8_empty_devices_empty_tokens (now : Nat) (acl : AclDatabase)
    (jwt_key : Nat) (my_cid : Uuid) (state : State) (cid : Uuid)
    (pr pw : List String) :
    stateStep now acl jwt_key my_cid state (.controlToken ⟨cid, [], pr, pw⟩) =
      (state, .controlTokenResponse ⟨[]⟩) := rfl

/-- C9: a device registered at time `t0` with submitted TTL `d.ttl` appears
in a GET /devices response computed at any later time `t1` with reported
`ttl = max(0, valid_until - t1)` where `valid_until = t0 + d.ttl`; the
reported value is a `Nat` (never negative) and never exceeds the submitted
TTL. -/
theorem c9_ttl_bound (t0 t1 : Nat) (state : State) (d : ApiDevice)
    (state1 : State) (hreg : register_device t0 state d = .ok state1)
    (hle : t0 ≤ t1) :
    (⟨d.cid, d.label, d.manufacturer, d.model, d.port, t0 + d.ttl - t1⟩ :
        ApiDevice) ∈ list_devices t1 state1 ∧
    ((t0 + d.ttl - t1 : Nat) : Int) =
      max 0 ((t0 : Int) + (d.ttl : Int) - (t1 : Int)) ∧
    t0 + d.ttl - t1 ≤ d.ttl := by
  refine ⟨?_, by omega, by omega⟩
  unfold register_device at hreg
  cases hlk : hmLookup state.devices d.cid with
  | some r =>
    rw [hlk] at hreg
    simp at hreg
  | none =>
    rw [hlk] at hreg
    simp only [Except.ok.injEq] at hreg
    subst hreg
    unfold list_devices
    exact List.mem_map_of_mem _ (hmInsert_mem_self state.devices d.cid
      ⟨d.label, d.manufacturer, d.model, d.port, t0 + d.ttl⟩)

/-- C9 witness: registration at time 10 with TTL 3600, listed at time 25. -/
theorem c9_ttl_bound_witness :
    (⟨devCid, "Lamp", "Acme", "L1", 40001, 10 + 3600 - 25⟩ : ApiDevice) ∈
      list_devices 25
        ⟨[(devCid, ⟨"Lamp", "Acme", "L1", 40001, 10 + 3600⟩)]⟩ ∧
    ((10 + 3600 - 25 : Nat) : Int) =
      max 0 ((10 : Int) + (3600 : Int) - (25 : Int)) ∧
    10 + 3600 - 25 ≤ 3600 :=
  c9_ttl_bound 10 25 ⟨[]⟩ ⟨devCid, "Lamp", "Acme", "L1", 40001, 3600⟩
    ⟨[(devCid, ⟨"Lamp", "Acme", "L1", 40001, 10 + 3600⟩)]⟩ rfl (by decide)

/-- C10: the tokens map of a successful control-token response is keyed by
device CID, its keys are pairwise distinct, and a CID is a key exactly when
it occurs in the request's `devices` list — so a CID repeated in the request
still gets exactly one entry. -/
theorem c10_one_token_per_distinct_cid (request : ControlTokenRequest)
    (acl : AclDatabase) (jwt_key : Nat) (arb_cid : Uuid) (now : Nat) :
    get_control_token request acl jwt_key arb_cid now =
      .ok ⟨mintAll request jwt_key arb_cid now⟩ ∧
    (hmKeys (mintAll request jwt_key arb_cid now)).Nodup ∧
    ∀ d : Uuid, d ∈ hmKeys (mintAll request jwt_key arb_cid now) ↔
      d ∈ request.devices := by
  refine ⟨rfl, ?_, ?_⟩
  · unfold mintAll
    exact nodup_hmKeys_foldl_insert
      (mintToken arb_cid request now jwt_key) request.devices [] (by simp [hmKeys])
  · intro d
    constructor
    · intro hmem
      by_contra hd
      have hnone : hmLookup (mintAll request jwt_key arb_cid now) d = none := by
        unfold mintAll
        rw [hmLookup_foldl_insert]
        simp [hd, hmLookup]
      rw [hmLookup_eq_none_iff] at hnone
      exact hnone hmem
    · intro hd
      have hsome : hmLookup (mintAll request jwt_key arb_cid now) d =
          some (mintToken arb_cid request now jwt_key d) := by
        unfold mintAll
        rw [hmLookup_foldl_insert]
        simp [hd]
      by_contra hmem
      rw [← hmLookup_eq_none_iff] at hmem
      rw [hsome] at hmem
      exact Option.noConfusion hmem

end Ngt
